import Mathlib

/-
Verification of the GStreamer checksum sink element (src/gstchecksumsink.c).

The development is split into:
  * a byte-level checksum engine (MD5 / SHA-1 / SHA-256 over `Nat` bytes,
    rendered as lowercase hexadecimal strings), modelling GLib's
    `g_compute_checksum_for_data`, validated below against standard test
    vectors;
  * a shallow embedding of `gst_checksum_sink_render` and its helper
    `get_plane_width_and_height`, with the observable effects of a call
    (frame mapping, scratch allocation, `g_print` output, free, unmap)
    recorded as an explicit event trace.

Machine integers are modelled as `Nat` with explicit reduction mod 2^32
where the C code computes in 32-bit words: the hash engine's word
arithmetic, and the render call's `guint` size computations
(`Ysize`/`Usize`/`Vsize`/`size`), whose wrap-around on huge frame
dimensions is a real integer-overflow bug of the C code that the model
preserves.  Source-buffer memory is
modelled as a total function from byte offsets to byte values, matching
the C memory model in which a read at any offset yields some byte.
-/

set_option maxRecDepth 100000

namespace ChecksumSink

/-- Truncate to a 32-bit word. -/
def w32 (n : Nat) : Nat := n % 4294967296

/-- Rotate a 32-bit word left by `s` bits. -/
def rotl32 (s n : Nat) : Nat := w32 ((n <<< s) ||| (n >>> (32 - s)))

/-- Rotate a 32-bit word right by `s` bits. -/
def rotr32 (s n : Nat) : Nat := w32 ((n >>> s) ||| (n <<< (32 - s)))

/-- Big-endian 8-byte encoding of a length-in-bits value. -/
def lenBytesBE (bits : Nat) : List Nat :=
  [(bits >>> 56) &&& 255, (bits >>> 48) &&& 255, (bits >>> 40) &&& 255,
   (bits >>> 32) &&& 255, (bits >>> 24) &&& 255, (bits >>> 16) &&& 255,
   (bits >>> 8) &&& 255, bits &&& 255]

/-- Little-endian 8-byte encoding of a length-in-bits value. -/
def lenBytesLE (bits : Nat) : List Nat :=
  [bits &&& 255, (bits >>> 8) &&& 255, (bits >>> 16) &&& 255,
   (bits >>> 24) &&& 255, (bits >>> 32) &&& 255, (bits >>> 40) &&& 255,
   (bits >>> 48) &&& 255, (bits >>> 56) &&& 255]

/-- Merkle–Damgård padding with a big-endian length field (SHA-1, SHA-256). -/
def padBE (msg : List Nat) : List Nat :=
  msg ++ 128 :: List.replicate ((119 - msg.length % 64) % 64) 0 ++ lenBytesBE (msg.length * 8)

/-- Merkle–Damgård padding with a little-endian length field (MD5). -/
def padLE (msg : List Nat) : List Nat :=
  msg ++ 128 :: List.replicate ((119 - msg.length % 64) % 64) 0 ++ lenBytesLE (msg.length * 8)

/-- Group bytes into big-endian 32-bit words. -/
def bytesToWordsBE : List Nat → List Nat
  | b0 :: b1 :: b2 :: b3 :: rest =>
      (((b0 * 256 + b1) * 256 + b2) * 256 + b3) :: bytesToWordsBE rest
  | _ => []

/-- Group bytes into little-endian 32-bit words. -/
def bytesToWordsLE : List Nat → List Nat
  | b0 :: b1 :: b2 :: b3 :: rest =>
      (b0 + 256 * (b1 + 256 * (b2 + 256 * b3))) :: bytesToWordsLE rest
  | _ => []

/-- Hexadecimal digit characters. -/
def hexDigits : List Char := "0123456789abcdef".data

def hexDigit (n : Nat) : Char := hexDigits.getD (n % 16) '0'

/-- Fixed-width big-endian hexadecimal rendering (`k` digits). -/
def natToHex : Nat → Nat → List Char
  | 0, _ => []
  | k + 1, n => natToHex k (n / 16) ++ [hexDigit (n % 16)]

/-- Hex rendering of a 32-bit word byte-by-byte in little-endian byte order (MD5 output). -/
def wordHexLE (n : Nat) : List Char :=
  natToHex 2 (n &&& 255) ++ natToHex 2 ((n >>> 8) &&& 255) ++
  natToHex 2 ((n >>> 16) &&& 255) ++ natToHex 2 ((n >>> 24) &&& 255)

/-! ### SHA-1 -/

def sha1K (i : Nat) : Nat :=
  if i < 20 then 0x5A827999
  else if i < 40 then 0x6ED9EBA1
  else if i < 60 then 0x8F1BBCDC
  else 0xCA62C1D6

def sha1F (i b c d : Nat) : Nat :=
  if i < 20 then (b &&& c) ||| ((b ^^^ 0xFFFFFFFF) &&& d)
  else if i < 40 then b ^^^ c ^^^ d
  else if i < 60 then (b &&& c) ||| (b &&& d) ||| (c &&& d)
  else b ^^^ c ^^^ d

/-- Extend the 16 message words to 80; `acc` holds the words generated so far,
most recent first. -/
def sha1Extend : Nat → List Nat → List Nat
  | 0, acc => acc.reverse
  | n + 1, acc =>
      let w := rotl32 1 (acc.getD 2 0 ^^^ acc.getD 7 0 ^^^ acc.getD 13 0 ^^^ acc.getD 15 0)
      sha1Extend n (w :: acc)

def sha1Rounds : Nat → List Nat → Nat × Nat × Nat × Nat × Nat → Nat × Nat × Nat × Nat × Nat
  | _, [], st => st
  | i, w :: ws, (a, b, c, d, e) =>
      sha1Rounds (i + 1) ws
        (w32 (rotl32 5 a + sha1F i b c d + e + sha1K i + w), a, rotl32 30 b, c, d)

def sha1Block (block : List Nat) (h : Nat × Nat × Nat × Nat × Nat) :
    Nat × Nat × Nat × Nat × Nat :=
  let ws := sha1Extend 64 (bytesToWordsBE block).reverse
  let r := sha1Rounds 0 ws h
  (w32 (h.1 + r.1), w32 (h.2.1 + r.2.1), w32 (h.2.2.1 + r.2.2.1),
   w32 (h.2.2.2.1 + r.2.2.2.1), w32 (h.2.2.2.2 + r.2.2.2.2))

def sha1Blocks : Nat → List Nat → Nat × Nat × Nat × Nat × Nat → Nat × Nat × Nat × Nat × Nat
  | 0, _, h => h
  | n + 1, msg, h => sha1Blocks n (msg.drop 64) (sha1Block (msg.take 64) h)

/-- SHA-1 digest of a byte list, as a lowercase hexadecimal string. -/
def sha1Hex (msg : List Nat) : String :=
  let padded := padBE msg
  let h := sha1Blocks (padded.length / 64) padded
      (0x67452301, 0xEFCDAB89, 0x98BADCFE, 0x10325476, 0xC3D2E1F0)
  String.mk (natToHex 8 h.1 ++ natToHex 8 h.2.1 ++ natToHex 8 h.2.2.1 ++
    natToHex 8 h.2.2.2.1 ++ natToHex 8 h.2.2.2.2)

/-! ### SHA-256 -/

def sha256K : List Nat :=
  [1116352408, 1899447441, 3049323471, 3921009573, 961987163,
   1508970993, 2453635748, 2870763221, 3624381080, 310598401,
   607225278, 1426881987, 1925078388, 2162078206, 2614888103,
   3248222580, 3835390401, 4022224774, 264347078, 604807628,
   770255983, 1249150122, 1555081692, 1996064986, 2554220882,
   2821834349, 2952996808, 3210313671, 3336571891, 3584528711,
   113926993, 338241895, 666307205, 773529912, 1294757372,
   1396182291, 1695183700, 1986661051, 2177026350, 2456956037,
   2730485921, 2820302411, 3259730800, 3345764771, 3516065817,
   3600352804, 4094571909, 275423344, 430227734, 506948616,
   659060556, 883997877, 958139571, 1322822218, 1537002063,
   1747873779, 1955562222, 2024104815, 2227730452, 2361852424,
   2428436474, 2756734187, 3204031479, 3329325298]

def sha256SmallSigma0 (x : Nat) : Nat := rotr32 7 x ^^^ rotr32 18 x ^^^ (x >>> 3)

def sha256SmallSigma1 (x : Nat) : Nat := rotr32 17 x ^^^ rotr32 19 x ^^^ (x >>> 10)

def sha256BigSigma0 (x : Nat) : Nat := rotr32 2 x ^^^ rotr32 13 x ^^^ rotr32 22 x

def sha256BigSigma1 (x : Nat) : Nat := rotr32 6 x ^^^ rotr32 11 x ^^^ rotr32 25 x

/-- Extend the 16 message words to 64; `acc` holds words most recent first. -/
def sha256Extend : Nat → List Nat → List Nat
  | 0, acc => acc.reverse
  | n + 1, acc =>
      let w := w32 (acc.getD 15 0 + sha256SmallSigma0 (acc.getD 14 0) +
        acc.getD 6 0 + sha256SmallSigma1 (acc.getD 1 0))
      sha256Extend n (w :: acc)

structure Sha256State where
  a : Nat
  b : Nat
  c : Nat
  d : Nat
  e : Nat
  f : Nat
  g : Nat
  h : Nat

def sha256Round (k w : Nat) (s : Sha256State) : Sha256State :=
  let t1 := w32 (s.h + sha256BigSigma1 s.e + ((s.e &&& s.f) ^^^ ((s.e ^^^ 0xFFFFFFFF) &&& s.g))
    + k + w)
  let t2 := w32 (sha256BigSigma0 s.a + ((s.a &&& s.b) ^^^ (s.a &&& s.c) ^^^ (s.b &&& s.c)))
  ⟨w32 (t1 + t2), s.a, s.b, s.c, w32 (s.d + t1), s.e, s.f, s.g⟩

def sha256Rounds : List (Nat × Nat) → Sha256State → Sha256State
  | [], s => s
  | (k, w) :: rest, s => sha256Rounds rest (sha256Round k w s)

def sha256Block (block : List Nat) (hv : Sha256State) : Sha256State :=
  let ws := sha256Extend 48 (bytesToWordsBE block).reverse
  let r := sha256Rounds (sha256K.zip ws) hv
  ⟨w32 (hv.a + r.a), w32 (hv.b + r.b), w32 (hv.c + r.c), w32 (hv.d + r.d),
   w32 (hv.e + r.e), w32 (hv.f + r.f), w32 (hv.g + r.g), w32 (hv.h + r.h)⟩

def sha256Blocks : Nat → List Nat → Sha256State → Sha256State
  | 0, _, hv => hv
  | n + 1, msg, hv => sha256Blocks n (msg.drop 64) (sha256Block (msg.take 64) hv)

/-- SHA-256 digest of a byte list, as a lowercase hexadecimal string. -/
def sha256Hex (msg : List Nat) : String :=
  let padded := padBE msg
  let hv := sha256Blocks (padded.length / 64) padded
      ⟨1779033703, 3144134277, 1013904242, 2773480762,
       1359893119, 2600822924, 528734635, 1541459225⟩
  String.mk (natToHex 8 hv.a ++ natToHex 8 hv.b ++ natToHex 8 hv.c ++ natToHex 8 hv.d ++
    natToHex 8 hv.e ++ natToHex 8 hv.f ++ natToHex 8 hv.g ++ natToHex 8 hv.h)

/-! ### MD5 -/

def md5K : List Nat :=
  [0xd76aa478, 0xe8c7b756, 0x242070db, 0xc1bdceee, 0xf57c0faf, 0x4787c62a,
   0xa8304613, 0xfd469501, 0x698098d8, 0x8b44f7af, 0xffff5bb1, 0x895cd7be,
   0x6b901122, 0xfd987193, 0xa679438e, 0x49b40821, 0xf61e2562, 0xc040b340,
   0x265e5a51, 0xe9b6c7aa, 0xd62f105d, 0x02441453, 0xd8a1e681, 0xe7d3fbc8,
   0x21e1cde6, 0xc33707d6, 0xf4d50d87, 0x455a14ed, 0xa9e3e905, 0xfcefa3f8,
   0x676f02d9, 0x8d2a4c8a, 0xfffa3942, 0x8771f681, 0x6d9d6122, 0xfde5380c,
   0xa4beea44, 0x4bdecfa9, 0xf6bb4b60, 0xbebfbc70, 0x289b7ec6, 0xeaa127fa,
   0xd4ef3085, 0x04881d05, 0xd9d4d039, 0xe6db99e5, 0x1fa27cf8, 0xc4ac5665,
   0xf4292244, 0x432aff97, 0xab9423a7, 0xfc93a039, 0x655b59c3, 0x8f0ccc92,
   0xffeff47d, 0x85845dd1, 0x6fa87e4f, 0xfe2ce6e0, 0xa3014314, 0x4e0811a1,
   0xf7537e82, 0xbd3af235, 0x2ad7d2bb, 0xeb86d391]

def md5S : List Nat :=
  [7, 12, 17, 22, 7, 12, 17, 22, 7, 12, 17, 22, 7, 12, 17, 22,
   5, 9, 14, 20, 5, 9, 14, 20, 5, 9, 14, 20, 5, 9, 14, 20,
   4, 11, 16, 23, 4, 11, 16, 23, 4, 11, 16, 23, 4, 11, 16, 23,
   6, 10, 15, 21, 6, 10, 15, 21, 6, 10, 15, 21, 6, 10, 15, 21]

def md5F (i b c d : Nat) : Nat :=
  if i < 16 then (b &&& c) ||| ((b ^^^ 0xFFFFFFFF) &&& d)
  else if i < 32 then (d &&& b) ||| ((d ^^^ 0xFFFFFFFF) &&& c)
  else if i < 48 then b ^^^ c ^^^ d
  else c ^^^ (b ||| (d ^^^ 0xFFFFFFFF))

def md5G (i : Nat) : Nat :=
  if i < 16 then i
  else if i < 32 then (5 * i + 1) % 16
  else if i < 48 then (3 * i + 5) % 16
  else (7 * i) % 16

def md5Rounds (m : List Nat) : Nat → Nat × Nat × Nat × Nat → Nat × Nat × Nat × Nat
  | 0, st => st
  | n + 1, (a, b, c, d) =>
      let i := 64 - (n + 1)
      let rot := rotl32 (md5S.getD i 0)
        (w32 (a + md5F i b c d + md5K.getD i 0 + m.getD (md5G i) 0))
      md5Rounds m n (d, w32 (b + rot), b, c)

def md5Block (block : List Nat) (h : Nat × Nat × Nat × Nat) : Nat × Nat × Nat × Nat :=
  let m := bytesToWordsLE block
  let r := md5Rounds m 64 h
  (w32 (h.1 + r.1), w32 (h.2.1 + r.2.1), w32 (h.2.2.1 + r.2.2.1), w32 (h.2.2.2 + r.2.2.2))

def md5Blocks : Nat → List Nat → Nat × Nat × Nat × Nat → Nat × Nat × Nat × Nat
  | 0, _, h => h
  | n + 1, msg, h => md5Blocks n (msg.drop 64) (md5Block (msg.take 64) h)

/-- MD5 digest of a byte list, as a lowercase hexadecimal string. -/
def md5Hex (msg : List Nat) : String :=
  let padded := padLE msg
  let h := md5Blocks (padded.length / 64) padded
      (0x67452301, 0xefcdab89, 0x98badcfe, 0x10325476)
  String.mk (wordHexLE h.1 ++ wordHexLE h.2.1 ++ wordHexLE h.2.2.1 ++ wordHexLE h.2.2.2)




/-! ### Checksum engine validation against standard test vectors -/

theorem sha1Hex_empty_vector : sha1Hex [] = "da39a3ee5e6b4b0d3255bfef95601890afd80709" := by
  decide

theorem sha1Hex_abc_vector : sha1Hex [97, 98, 99] = "a9993e364706816aba3e25717850c26c9cd0d89d" := by
  decide

theorem sha256Hex_abc_vector :
    sha256Hex [97, 98, 99] = "ba7816bf8f01cfea414140de5dae2223b00361a396177a9cb410ff61f20015ad" := by
  decide

theorem md5Hex_abc_vector : md5Hex [97, 98, 99] = "900150983cd24fb0d6963f7d28e17f72" := by
  decide

/-! ### Data model: the GStreamer types as the sink uses them -/

/-- Raw video formats.  The sink only ever distinguishes `I420` and `YV12`
(gstchecksumsink.c:254-260); `OTHER code` stands for every other
`GstVideoFormat` value. -/
inductive GstVideoFormat where
  | I420
  | YV12
  | OTHER (code : Nat)
deriving DecidableEq

/-- GLib checksum algorithm selector (`GChecksumType`); the sink registers
exactly these three values (gstchecksumsink.c:44-49). -/
inductive GChecksumType where
  | MD5
  | SHA1
  | SHA256
deriving DecidableEq

/-- GLib `g_compute_checksum_for_data`: digest of a byte range rendered as a
lowercase hexadecimal string. -/
def g_compute_checksum_for_data : GChecksumType → List Nat → String
  | .MD5, d => md5Hex d
  | .SHA1, d => sha1Hex d
  | .SHA256, d => sha256Hex d

/-- The fields of `GstVideoInfo` the sink reads: format, width, height
(set by `gst_checksum_sink_set_caps`, gstchecksumsink.c:197-206). -/
structure GstVideoInfo where
  format : GstVideoFormat
  width : Nat
  height : Nat
deriving DecidableEq

/-- The fields of `GstVideoCropMeta` the sink reads (gstchecksumsink.c:250-251). -/
structure GstVideoCropMeta where
  width : Nat
  height : Nat
deriving DecidableEq

/-- One mapped plane: its source memory (a total function from byte offset to
byte value, the C memory model) and its stride (`sinfo->stride[plane]`). -/
structure VideoPlane where
  data : Nat → Nat
  stride : Nat

/-- A successfully mapped `GstVideoFrame`: the per-plane data pointers and
strides (`frame.data[plane]`, `frame.info.stride[plane]`). -/
structure GstVideoFrame where
  planes : List VideoPlane

/-- The aspects of a `GstBuffer` the render call observes: the optional crop
meta, and the outcome of `gst_video_frame_map` on it (`none` models a map
failure). -/
structure GstBuffer where
  crop_meta : Option GstVideoCropMeta
  map_result : Option GstVideoFrame

/-- `GstChecksumSink` element state read by the render call. -/
structure GstChecksumSink where
  vinfo : GstVideoInfo
  checksum_type : GChecksumType
  plane_checksum : Bool
deriving DecidableEq

/-- `GstVideoFormatInfo.n_planes` of the mapped frame's format; both supported
formats are 3-plane 4:2:0 layouts.  Unsupported formats never reach the plane
loop (they are rejected at gstchecksumsink.c:254-260), so the value chosen for
`OTHER` is irrelevant to the render model. -/
def n_planes : GstVideoFormat → Nat
  | .I420 => 3
  | .YV12 => 3
  | .OTHER _ => 1

/-! ### The sink's helper and render call -/

/-- C `get_plane_width_and_height` (gstchecksumsink.c:218-229). -/
def get_plane_width_and_height (plane width height : Nat) : Nat × Nat :=
  if plane ≠ 0 then (width / 2, height / 2) else (width, height)

/-- The effective frame dimensions (gstchecksumsink.c:244-252): the crop
meta's width/height when the buffer carries one, the negotiated `vinfo`
dimensions otherwise. -/
def effective_dimensions (sink : GstChecksumSink) (buffer : GstBuffer) : Nat × Nat :=
  match buffer.crop_meta with
  | none => (sink.vinfo.width, sink.vinfo.height)
  | some cm => (cm.width, cm.height)

/-- The row-copy loop for one plane (gstchecksumsink.c:285-289): `h` rows of
`w` bytes each, the source pointer advancing by `stride` per row, the
destination tightly packed. -/
def copy_plane_rows (sp : Nat → Nat) (stride w : Nat) : Nat → List Nat
  | 0 => []
  | h + 1 => copy_plane_rows sp stride w h ++ (List.range w).map fun i => sp (h * stride + i)

/-- The bytes the plane loop appends to the scratch buffer for one plane. -/
def plane_extraction (frame : GstVideoFrame) (width height plane : Nat) : List Nat :=
  let p := frame.planes.getD plane ⟨fun _ => 0, 0⟩
  let wh := get_plane_width_and_height plane width height
  copy_plane_rows p.data p.stride wh.1 wh.2

/-- The whole packed scratch buffer contents after all three planes of a
supported format have been extracted. -/
def pack_frame (frame : GstVideoFrame) (width height : Nat) : List Nat :=
  plane_extraction frame width height 0 ++ plane_extraction frame width height 1 ++
    plane_extraction frame width height 2

/-- Offset (`pp - dp`) and length handed to the per-plane checksum by the
switch at gstchecksumsink.c:294-317.  `plane` can only be 0, 1 or 2 there
(`n_planes` is 3 for both supported formats). -/
def plane_checksum_range (fmt : GstVideoFormat) (Ysize Usize Vsize plane : Nat) : Nat × Nat :=
  match plane with
  | 0 => (0, Ysize)
  | 1 => (Ysize, if fmt = .I420 then Usize else Vsize)
  | _ => if fmt = .I420 then (Ysize + Usize, Vsize) else (Ysize + Vsize, Usize)

/-- Observable effects of one render call, in program order: mapping the
source frame, the single `g_malloc` of the scratch buffer, each `g_print`,
the `g_free` of the scratch buffer (recorded with the freed pointer's offset
from the allocation start `dp`), and the frame unmap. -/
inductive Event where
  | map_frame
  | alloc (size : Nat)
  | emit (s : String)
  | free_scratch (offset : Nat)
  | unmap
deriving DecidableEq

/-- How the render call ends: `GST_FLOW_OK`, `GST_FLOW_ERROR`, or the
`g_assert_not_reached` abort on a frame-map failure
(gstchecksumsink.c:268-271). -/
inductive RenderOutcome where
  | flowOk
  | flowError
  | assertAbort
deriving DecidableEq

/-- Result of one render call: outcome, the event trace, and the element
state when the call ends (the render never writes the element's fields). -/
structure RenderResult where
  outcome : RenderOutcome
  events : List Event
  sink : GstChecksumSink
deriving DecidableEq

/-- State threaded through the plane loop: the bytes written to the scratch
buffer so far (the C code's `data` pointer stands `dest.length` bytes past
`dp`), and the events so far. -/
structure LoopState where
  dest : List Nat
  events : List Event

/-- One iteration of the plane loop (gstchecksumsink.c:279-325): extract the
plane into the scratch buffer, then in per-plane mode checksum the plane's
byte range of the scratch buffer and print it followed by two spaces
(`g_print ("%s  ", checksum)`). -/
def render_plane (sink : GstChecksumSink) (frame : GstVideoFrame)
    (width height Ysize Usize Vsize : Nat) (st : LoopState) (plane : Nat) : LoopState :=
  let p := frame.planes.getD plane ⟨fun _ => 0, 0⟩
  let wh := get_plane_width_and_height plane width height
  let dest := st.dest ++ copy_plane_rows p.data p.stride wh.1 wh.2
  let events :=
    if sink.plane_checksum then
      let r := plane_checksum_range sink.vinfo.format Ysize Usize Vsize plane
      let checksum := g_compute_checksum_for_data sink.checksum_type ((dest.drop r.1).take r.2)
      st.events ++ [Event.emit (checksum ++ "  ")]
    else st.events
  ⟨dest, events⟩

/-- C `gst_checksum_sink_render` (gstchecksumsink.c:231-342).

`Ysize`, `Usize`, `Vsize` and `size` are `guint` variables (lines 240-241),
so the products and the sum that compute them wrap mod 2^32 (`w32`); the
scratch buffer is `g_malloc (size)` with the wrapped `size`.  The row-copy
loop itself runs over the unwrapped per-plane dimensions, so when the size
computation wraps the loop writes past the allocation (the C has an
integer-overflow heap overflow there; the model keeps the written bytes as
the growing list `st.dest`).  The whole-frame checksum reads the `size`
bytes starting at `dp`, i.e. the first `size` written bytes.  After the loop
the code restores `data = dp` (line 326) and frees that pointer, i.e. offset
0 into the allocation. -/
def gst_checksum_sink_render (sink : GstChecksumSink) (buffer : GstBuffer) : RenderResult :=
  let wh := effective_dimensions sink buffer
  let width := wh.1
  let height := wh.2
  if sink.vinfo.format ≠ .I420 ∧ sink.vinfo.format ≠ .YV12 then
    ⟨.flowError, [], sink⟩
  else
    let Ysize := w32 (width * height)
    let Usize := w32 ((width / 2) * (height / 2))
    let Vsize := Usize
    let size := w32 (Ysize + Usize + Vsize)
    match buffer.map_result with
    | none => ⟨.assertAbort, [.map_frame], sink⟩
    | some frame =>
      let st0 : LoopState := ⟨[], [.map_frame, .alloc size]⟩
      let st := (List.range (n_planes sink.vinfo.format)).foldl
        (render_plane sink frame width height Ysize Usize Vsize) st0
      let events := st.events ++ (if sink.plane_checksum then [Event.emit "\n"] else [])
      let events := events ++
        (if sink.plane_checksum then []
         else [Event.emit ("FrameChecksum " ++
           g_compute_checksum_for_data sink.checksum_type (st.dest.take size) ++ "\n")])
      ⟨.flowOk, events ++ [.free_scratch 0, .unmap], sink⟩

/-- Concatenation of everything the call `g_print`s, i.e. the text a run
writes to standard output. -/
def emitted : List Event → String
  | [] => ""
  | .emit s :: es => s ++ emitted es
  | _ :: es => emitted es

/-- Recognizes the scratch-buffer allocation event. -/
def is_alloc_event : Event → Bool
  | .alloc _ => true
  | _ => false

/-! ### Structural lemmas about the extraction loop -/

theorem copy_plane_rows_length (sp : Nat → Nat) (stride w : Nat) :
    ∀ h, (copy_plane_rows sp stride w h).length = h * w := by
  intro h
  induction h with
  | zero => simp [copy_plane_rows]
  | succ h ih =>
      simp [copy_plane_rows, ih, Nat.succ_mul]

theorem copy_take_full (sp : Nat → Nat) (stride w h : Nat) :
    (copy_plane_rows sp stride w h).take (w * h) = copy_plane_rows sp stride w h :=
  List.take_of_length_le (by rw [copy_plane_rows_length, Nat.mul_comm])

theorem copy_drop_after (sp : Nat → Nat) (stride w h : Nat) (l : List Nat) :
    (copy_plane_rows sp stride w h ++ l).drop (w * h) = l :=
  List.drop_left' (by rw [copy_plane_rows_length, Nat.mul_comm])

theorem copy_drop_add (sp : Nat → Nat) (stride w h c : Nat) (l : List Nat) :
    (copy_plane_rows sp stride w h ++ l).drop (w * h + c) = l.drop c := by
  have hl : (copy_plane_rows sp stride w h).length = w * h := by
    rw [copy_plane_rows_length, Nat.mul_comm]
  rw [List.drop_append_eq_append_drop, hl,
    List.drop_eq_nil_of_le (by omega), List.nil_append, Nat.add_sub_cancel_left]

theorem plane_extraction_length_luma (frame : GstVideoFrame) (width height : Nat) :
    (plane_extraction frame width height 0).length = width * height := by
  simp [plane_extraction, get_plane_width_and_height, copy_plane_rows_length, Nat.mul_comm]

theorem plane_extraction_length_chroma (frame : GstVideoFrame) (width height plane : Nat)
    (hp : plane ≠ 0) :
    (plane_extraction frame width height plane).length = (width / 2) * (height / 2) := by
  simp [plane_extraction, get_plane_width_and_height, hp, copy_plane_rows_length, Nat.mul_comm]

theorem pack_frame_length (frame : GstVideoFrame) (width height : Nat) :
    (pack_frame frame width height).length =
      width * height + (width / 2) * (height / 2) + (width / 2) * (height / 2) := by
  simp [pack_frame, plane_extraction_length_luma, plane_extraction_length_chroma,
    Nat.add_assoc]

theorem pack_frame_slice_0 (frame : GstVideoFrame) (width height : Nat) :
    (pack_frame frame width height).take (width * height) = plane_extraction frame width height 0 := by
  rw [pack_frame, List.append_assoc,
    List.take_left' (plane_extraction_length_luma frame width height)]

theorem pack_frame_slice_1 (frame : GstVideoFrame) (width height : Nat) :
    ((pack_frame frame width height).drop (width * height)).take ((width / 2) * (height / 2)) =
      plane_extraction frame width height 1 := by
  rw [pack_frame, List.append_assoc,
    List.drop_left' (plane_extraction_length_luma frame width height),
    List.take_left' (plane_extraction_length_chroma frame width height 1 (by decide))]

theorem pack_frame_slice_2 (frame : GstVideoFrame) (width height : Nat) :
    ((pack_frame frame width height).drop
        (width * height + (width / 2) * (height / 2))).take ((width / 2) * (height / 2)) =
      plane_extraction frame width height 2 := by
  have hlen : (plane_extraction frame width height 0 ++
      plane_extraction frame width height 1).length =
        width * height + (width / 2) * (height / 2) := by
    rw [List.length_append, plane_extraction_length_luma,
      plane_extraction_length_chroma frame width height 1 (by decide)]
  rw [pack_frame, List.drop_left' hlen]
  exact List.take_of_length_le
    (le_of_eq (plane_extraction_length_chroma frame width height 2 (by decide)))

/-! ### Canonical form of a successful render call -/

theorem render_eq_whole_wrapped (sink : GstChecksumSink) (buffer : GstBuffer)
    (frame : GstVideoFrame) (width height : Nat)
    (hfmt : sink.vinfo.format = .I420 ∨ sink.vinfo.format = .YV12)
    (hpc : sink.plane_checksum = false)
    (hmap : buffer.map_result = some frame)
    (heff : effective_dimensions sink buffer = (width, height)) :
    gst_checksum_sink_render sink buffer =
      ⟨.flowOk,
        [Event.map_frame,
         Event.alloc (w32 (w32 (width * height) + w32 ((width / 2) * (height / 2)) +
           w32 ((width / 2) * (height / 2)))),
         Event.emit ("FrameChecksum " ++
           g_compute_checksum_for_data sink.checksum_type
             ((pack_frame frame width height).take
               (w32 (w32 (width * height) + w32 ((width / 2) * (height / 2)) +
                 w32 ((width / 2) * (height / 2))))) ++ "\n"),
         Event.free_scratch 0, Event.unmap],
        sink⟩ := by
  rcases hfmt with h | h <;>
    simp [gst_checksum_sink_render, heff, h, hmap, hpc, n_planes,
      (by decide : List.range 3 = [0, 1, 2]), render_plane, plane_checksum_range,
      pack_frame, plane_extraction]

theorem render_eq_planes_wrapped (sink : GstChecksumSink) (buffer : GstBuffer)
    (frame : GstVideoFrame) (width height : Nat)
    (hfmt : sink.vinfo.format = .I420 ∨ sink.vinfo.format = .YV12)
    (hpc : sink.plane_checksum = true)
    (hmap : buffer.map_result = some frame)
    (heff : effective_dimensions sink buffer = (width, height)) :
    gst_checksum_sink_render sink buffer =
      ⟨.flowOk,
        [Event.map_frame,
         Event.alloc (w32 (w32 (width * height) + w32 ((width / 2) * (height / 2)) +
           w32 ((width / 2) * (height / 2)))),
         Event.emit (g_compute_checksum_for_data sink.checksum_type
           ((plane_extraction frame width height 0).take (w32 (width * height))) ++ "  "),
         Event.emit (g_compute_checksum_for_data sink.checksum_type
           (((plane_extraction frame width height 0 ++
               plane_extraction frame width height 1).drop (w32 (width * height))).take
             (w32 ((width / 2) * (height / 2)))) ++ "  "),
         Event.emit (g_compute_checksum_for_data sink.checksum_type
           (((plane_extraction frame width height 0 ++ plane_extraction frame width height 1 ++
               plane_extraction frame width height 2).drop
               (w32 (width * height) + w32 ((width / 2) * (height / 2)))).take
             (w32 ((width / 2) * (height / 2)))) ++ "  "),
         Event.emit "\n",
         Event.free_scratch 0, Event.unmap],
        sink⟩ := by
  rcases hfmt with h | h <;>
    simp [gst_checksum_sink_render, heff, h, hmap, hpc, n_planes,
      (by decide : List.range 3 = [0, 1, 2]), render_plane, plane_checksum_range,
      plane_extraction, get_plane_width_and_height]

/-! ### Canonical form when the packed size fits in 32 bits

Whenever the packed byte count is below 2^32 (every frame the C program
processes without its `guint` size arithmetic wrapping — beyond that the
extraction loop overflows the heap before any digest is emitted), the wraps
are the identity and the scratch buffer holds exactly the packed frame. -/

theorem render_eq_whole (sink : GstChecksumSink) (buffer : GstBuffer) (frame : GstVideoFrame)
    (width height : Nat)
    (hfmt : sink.vinfo.format = .I420 ∨ sink.vinfo.format = .YV12)
    (hpc : sink.plane_checksum = false)
    (hmap : buffer.map_result = some frame)
    (heff : effective_dimensions sink buffer = (width, height))
    (hsize : width * height + 2 * ((width / 2) * (height / 2)) < 4294967296) :
    gst_checksum_sink_render sink buffer =
      ⟨.flowOk,
        [Event.map_frame,
         Event.alloc (width * height + (width / 2) * (height / 2) + (width / 2) * (height / 2)),
         Event.emit ("FrameChecksum " ++
           g_compute_checksum_for_data sink.checksum_type (pack_frame frame width height) ++ "\n"),
         Event.free_scratch 0, Event.unmap],
        sink⟩ := by
  have hY : w32 (width * height) = width * height := Nat.mod_eq_of_lt (by omega)
  have hU : w32 ((width / 2) * (height / 2)) = (width / 2) * (height / 2) :=
    Nat.mod_eq_of_lt (by omega)
  rw [render_eq_whole_wrapped sink buffer frame width height hfmt hpc hmap heff, hY, hU]
  have hS : w32 (width * height + (width / 2) * (height / 2) + (width / 2) * (height / 2)) =
      width * height + (width / 2) * (height / 2) + (width / 2) * (height / 2) :=
    Nat.mod_eq_of_lt (by omega)
  rw [hS, List.take_of_length_le (le_of_eq (pack_frame_length frame width height))]

theorem render_eq_planes (sink : GstChecksumSink) (buffer : GstBuffer) (frame : GstVideoFrame)
    (width height : Nat)
    (hfmt : sink.vinfo.format = .I420 ∨ sink.vinfo.format = .YV12)
    (hpc : sink.plane_checksum = true)
    (hmap : buffer.map_result = some frame)
    (heff : effective_dimensions sink buffer = (width, height))
    (hsize : width * height + 2 * ((width / 2) * (height / 2)) < 4294967296) :
    gst_checksum_sink_render sink buffer =
      ⟨.flowOk,
        [Event.map_frame,
         Event.alloc (width * height + (width / 2) * (height / 2) + (width / 2) * (height / 2)),
         Event.emit (g_compute_checksum_for_data sink.checksum_type
           (plane_extraction frame width height 0) ++ "  "),
         Event.emit (g_compute_checksum_for_data sink.checksum_type
           (plane_extraction frame width height 1) ++ "  "),
         Event.emit (g_compute_checksum_for_data sink.checksum_type
           (plane_extraction frame width height 2) ++ "  "),
         Event.emit "\n",
         Event.free_scratch 0, Event.unmap],
        sink⟩ := by
  have hY : w32 (width * height) = width * height := Nat.mod_eq_of_lt (by omega)
  have hU : w32 ((width / 2) * (height / 2)) = (width / 2) * (height / 2) :=
    Nat.mod_eq_of_lt (by omega)
  have hS : w32 (width * height + (width / 2) * (height / 2) + (width / 2) * (height / 2)) =
      width * height + (width / 2) * (height / 2) + (width / 2) * (height / 2) :=
    Nat.mod_eq_of_lt (by omega)
  have t0 : (plane_extraction frame width height 0).take (width * height) =
      plane_extraction frame width height 0 :=
    List.take_of_length_le (le_of_eq (plane_extraction_length_luma frame width height))
  have d1 : (plane_extraction frame width height 0 ++
      plane_extraction frame width height 1).drop (width * height) =
        plane_extraction frame width height 1 :=
    List.drop_left' (plane_extraction_length_luma frame width height)
  have t1 : (plane_extraction frame width height 1).take ((width / 2) * (height / 2)) =
      plane_extraction frame width height 1 :=
    List.take_of_length_le
      (le_of_eq (plane_extraction_length_chroma frame width height 1 (by decide)))
  have hlen : (plane_extraction frame width height 0 ++
      plane_extraction frame width height 1).length =
        width * height + (width / 2) * (height / 2) := by
    rw [List.length_append, plane_extraction_length_luma,
      plane_extraction_length_chroma frame width height 1 (by decide)]
  have d2 : (plane_extraction frame width height 0 ++ plane_extraction frame width height 1 ++
      plane_extraction frame width height 2).drop
        (width * height + (width / 2) * (height / 2)) =
        plane_extraction frame width height 2 :=
    List.drop_left' hlen
  have t2 : (plane_extraction frame width height 2).take ((width / 2) * (height / 2)) =
      plane_extraction frame width height 2 :=
    List.take_of_length_le
      (le_of_eq (plane_extraction_length_chroma frame width height 2 (by decide)))
  rw [render_eq_planes_wrapped sink buffer frame width height hfmt hpc hmap heff,
    hY, hU, hS, t0, d1, t1, d2, t2]

/-! ### Digest strings never contain a newline -/

theorem hexDigit_ne_newline (n : Nat) : hexDigit n ≠ '\n' := by
  have hlt : n % 16 < 16 := Nat.mod_lt _ (by decide)
  unfold hexDigit
  set k := n % 16 with hk
  interval_cases k <;> decide

theorem natToHex_ne_newline (k n : Nat) : ∀ c ∈ natToHex k n, c ≠ '\n' := by
  induction k generalizing n with
  | zero => intro c hc; simp [natToHex] at hc
  | succ k ih =>
      intro c hc
      simp only [natToHex, List.mem_append, List.mem_singleton] at hc
      rcases hc with hc | hc
      · exact ih _ c hc
      · rw [hc]; exact hexDigit_ne_newline _

/-- No character of the list is a newline. -/
def no_newline (cs : List Char) : Prop := ∀ c ∈ cs, c ≠ '\n'

theorem no_newline_append {a b : List Char} (ha : no_newline a) (hb : no_newline b) :
    no_newline (a ++ b) := by
  intro c hc
  rcases List.mem_append.mp hc with h | h
  · exact ha c h
  · exact hb c h

theorem no_newline_natToHex (k n : Nat) : no_newline (natToHex k n) :=
  fun c hc => natToHex_ne_newline k n c hc

theorem no_newline_wordHexLE (n : Nat) : no_newline (wordHexLE n) :=
  no_newline_append (no_newline_append (no_newline_append
    (no_newline_natToHex 2 _) (no_newline_natToHex 2 _))
    (no_newline_natToHex 2 _)) (no_newline_natToHex 2 _)

theorem no_newline_g_compute (t : GChecksumType) (l : List Nat) :
    no_newline (g_compute_checksum_for_data t l).data := by
  cases t
  · exact no_newline_append (no_newline_append (no_newline_append
      (no_newline_wordHexLE _) (no_newline_wordHexLE _))
      (no_newline_wordHexLE _)) (no_newline_wordHexLE _)
  · exact no_newline_append (no_newline_append (no_newline_append (no_newline_append
      (no_newline_natToHex 8 _) (no_newline_natToHex 8 _)) (no_newline_natToHex 8 _))
      (no_newline_natToHex 8 _)) (no_newline_natToHex 8 _)
  · exact no_newline_append (no_newline_append (no_newline_append (no_newline_append
      (no_newline_append (no_newline_append (no_newline_append
      (no_newline_natToHex 8 _) (no_newline_natToHex 8 _)) (no_newline_natToHex 8 _))
      (no_newline_natToHex 8 _)) (no_newline_natToHex 8 _)) (no_newline_natToHex 8 _))
      (no_newline_natToHex 8 _)) (no_newline_natToHex 8 _)

theorem g_compute_checksum_newline_free (t : GChecksumType) (l : List Nat) :
    (g_compute_checksum_for_data t l).data.count '\n' = 0 := by
  rw [List.count_eq_zero]
  intro hmem
  exact no_newline_g_compute t l _ hmem rfl

/-! ### Congruence lemmas -/

theorem copy_plane_rows_congr (sp1 sp2 : Nat → Nat) (st1 st2 w : Nat) :
    ∀ h, (∀ j < h, ∀ i < w, sp1 (j * st1 + i) = sp2 (j * st2 + i)) →
      copy_plane_rows sp1 st1 w h = copy_plane_rows sp2 st2 w h := by
  intro h
  induction h with
  | zero => intro _; rfl
  | succ h ih =>
      intro hc
      unfold copy_plane_rows
      rw [ih fun j hj i hi => hc j (Nat.lt_succ_of_lt hj) i hi]
      rw [List.map_congr_left fun i hi => hc h (Nat.lt_succ_self h) i (List.mem_range.mp hi)]

theorem effective_dimensions_congr (sink : GstChecksumSink) (b1 b2 : GstBuffer)
    (h : b1.crop_meta = b2.crop_meta) :
    effective_dimensions sink b1 = effective_dimensions sink b2 := by
  unfold effective_dimensions
  rw [h]

/-! ### Concrete fixtures (a 4x4 all-zero I420 frame, and small variants) -/

/-- A mapped frame whose three planes are all-zero memory with the tightest
strides for a 4x4 I420 frame (luma stride 4, chroma strides 2). -/
def zeroFrame : GstVideoFrame :=
  ⟨[⟨fun _ => 0, 4⟩, ⟨fun _ => 0, 2⟩, ⟨fun _ => 0, 2⟩]⟩

/-- A sink negotiated to 4x4 I420, SHA-1, whole-frame mode. -/
def zeroSink : GstChecksumSink := ⟨⟨.I420, 4, 4⟩, .SHA1, false⟩

/-- A sink negotiated to 4x4 I420, SHA-1, per-plane mode. -/
def zeroPlaneSink : GstChecksumSink := ⟨⟨.I420, 4, 4⟩, .SHA1, true⟩

/-- A buffer with no crop meta that maps successfully to `zeroFrame`. -/
def zeroBuffer : GstBuffer := ⟨none, some zeroFrame⟩

/-! ### Claims -/

/-- C1 (counterexample): on the 4x4 all-zero I420 frame with SHA1 and
per_plane=false, the whole-frame line the render call emits is NOT
`FrameChecksum ef46db3751d8e999000fc2a06d4f1c8500ab0a82`; the claim's hex
constant is not SHA1 of 24 zero bytes. -/
theorem c1_zero_frame_digest_differs :
    emitted (gst_checksum_sink_render zeroSink zeroBuffer).events ≠
      "FrameChecksum ef46db3751d8e999000fc2a06d4f1c8500ab0a82\n" := by
  decide

/-- C1 (amended): for the 4x4 all-zero I420 frame with algorithm SHA1 and
per_plane=false, the whole-frame digest emitted equals SHA1 of the 24-byte
packed frame (16+4+4 zero bytes), whose hex string is
`d3399b7262fb56cb9ed053d68db9291c410839c4`. -/
theorem c1_zero_frame_digest :
    emitted (gst_checksum_sink_render zeroSink zeroBuffer).events =
      "FrameChecksum " ++ sha1Hex (List.replicate 24 0) ++ "\n" ∧
    pack_frame zeroFrame 4 4 = List.replicate 24 0 ∧
    sha1Hex (List.replicate 24 0) = "d3399b7262fb56cb9ed053d68db9291c410839c4" := by
  refine ⟨by decide, by decide, by decide⟩

/-- C3: the plane geometry resolver returns the full frame dimensions for
plane 0 and the floor-halved dimensions for every other plane index,
independent of the pixel format (the function does not take the format). -/
theorem c3_plane_geometry (plane width height : Nat) :
    get_plane_width_and_height plane width height =
      if plane = 0 then (width, height) else (width / 2, height / 2) := by
  by_cases h : plane = 0 <;> simp [get_plane_width_and_height, h]

/-- C7: a frame whose negotiated format is neither I420 nor YV12 makes the
render call return GST_FLOW_ERROR immediately, with an empty event trace: the
source buffer is never mapped, the scratch buffer is never allocated, and
nothing is emitted. -/
theorem c7_unsupported_format (sink : GstChecksumSink) (buffer : GstBuffer)
    (h1 : sink.vinfo.format ≠ .I420) (h2 : sink.vinfo.format ≠ .YV12) :
    gst_checksum_sink_render sink buffer = ⟨.flowError, [], sink⟩ := by
  simp [gst_checksum_sink_render, h1, h2]

theorem c7_witness :
    ((⟨⟨.OTHER 23, 4, 4⟩, .SHA1, false⟩ : GstChecksumSink).vinfo.format ≠ .I420) ∧
    gst_checksum_sink_render ⟨⟨.OTHER 23, 4, 4⟩, .SHA1, false⟩ zeroBuffer =
      ⟨.flowError, [], ⟨⟨.OTHER 23, 4, 4⟩, .SHA1, false⟩⟩ :=
  ⟨by decide,
   c7_unsupported_format ⟨⟨.OTHER 23, 4, 4⟩, .SHA1, false⟩ zeroBuffer
     (by decide) (by decide)⟩

/-- C9: with a supported format, a source buffer whose mapping fails makes
the call abort fatally (`g_assert_not_reached`): the only event is the map
attempt, so no digest output is emitted and there is no partial-result
path. -/
theorem c9_map_failure_aborts (sink : GstChecksumSink) (buffer : GstBuffer)
    (hfmt : sink.vinfo.format = .I420 ∨ sink.vinfo.format = .YV12)
    (hmap : buffer.map_result = none) :
    gst_checksum_sink_render sink buffer = ⟨.assertAbort, [Event.map_frame], sink⟩ ∧
    emitted (gst_checksum_sink_render sink buffer).events = "" := by
  have h : gst_checksum_sink_render sink buffer = ⟨.assertAbort, [Event.map_frame], sink⟩ := by
    rcases hfmt with h | h <;> simp [gst_checksum_sink_render, h, hmap]
  exact ⟨h, by rw [h]; rfl⟩

theorem c9_witness :
    ((zeroSink.vinfo.format = .I420 ∨ zeroSink.vinfo.format = .YV12) ∧
      (⟨none, none⟩ : GstBuffer).map_result = none) ∧
    gst_checksum_sink_render zeroSink ⟨none, none⟩ =
        ⟨.assertAbort, [Event.map_frame], zeroSink⟩ ∧
      emitted (gst_checksum_sink_render zeroSink ⟨none, none⟩).events = "" :=
  ⟨⟨Or.inl rfl, rfl⟩, c9_map_failure_aborts zeroSink ⟨none, none⟩ (Or.inl rfl) rfl⟩

/-- C2: in per-plane mode, for both supported formats, the digest emitted for
plane p is computed over exactly that plane's byte range of the packed
scratch buffer: plane 0 over [0, Ysize), plane 1 over [Ysize, Ysize+Usize),
plane 2 over [Ysize+Usize, Ysize+2*Usize), with Ysize = width*height and
Usize = (width/2)*(height/2); the offsets follow the packing order and are
the same for I420 and YV12.  The size hypothesis restricts to frames whose
packed byte count fits the C code's 32-bit `guint` size arithmetic: on
larger frames the C overflows its scratch allocation during extraction and
emits no digests at all, so those executions carry no emitted byte range for
the claim to speak about. -/
theorem c2_per_plane_digest_ranges (sink : GstChecksumSink) (buffer : GstBuffer)
    (frame : GstVideoFrame) (width height : Nat)
    (hfmt : sink.vinfo.format = .I420 ∨ sink.vinfo.format = .YV12)
    (hpc : sink.plane_checksum = true)
    (hmap : buffer.map_result = some frame)
    (heff : effective_dimensions sink buffer = (width, height))
    (hsize : width * height + 2 * ((width / 2) * (height / 2)) < 4294967296) :
    (gst_checksum_sink_render sink buffer).events =
      [Event.map_frame,
       Event.alloc (width * height + (width / 2) * (height / 2) + (width / 2) * (height / 2)),
       Event.emit (g_compute_checksum_for_data sink.checksum_type
         ((pack_frame frame width height).take (width * height)) ++ "  "),
       Event.emit (g_compute_checksum_for_data sink.checksum_type
         (((pack_frame frame width height).drop (width * height)).take
           ((width / 2) * (height / 2))) ++ "  "),
       Event.emit (g_compute_checksum_for_data sink.checksum_type
         (((pack_frame frame width height).drop
             (width * height + (width / 2) * (height / 2))).take
           ((width / 2) * (height / 2))) ++ "  "),
       Event.emit "\n",
       Event.free_scratch 0, Event.unmap] := by
  rw [render_eq_planes sink buffer frame width height hfmt hpc hmap heff hsize,
    pack_frame_slice_0, pack_frame_slice_1, pack_frame_slice_2]

theorem c2_witness :
    (zeroPlaneSink.plane_checksum = true ∧ zeroBuffer.map_result = some zeroFrame) ∧
    (gst_checksum_sink_render zeroPlaneSink zeroBuffer).events =
      [Event.map_frame,
       Event.alloc (4 * 4 + (4 / 2) * (4 / 2) + (4 / 2) * (4 / 2)),
       Event.emit (g_compute_checksum_for_data zeroPlaneSink.checksum_type
         ((pack_frame zeroFrame 4 4).take (4 * 4)) ++ "  "),
       Event.emit (g_compute_checksum_for_data zeroPlaneSink.checksum_type
         (((pack_frame zeroFrame 4 4).drop (4 * 4)).take ((4 / 2) * (4 / 2))) ++ "  "),
       Event.emit (g_compute_checksum_for_data zeroPlaneSink.checksum_type
         (((pack_frame zeroFrame 4 4).drop (4 * 4 + (4 / 2) * (4 / 2))).take
           ((4 / 2) * (4 / 2))) ++ "  "),
       Event.emit "\n",
       Event.free_scratch 0, Event.unmap] :=
  ⟨⟨rfl, rfl⟩,
   c2_per_plane_digest_ranges zeroPlaneSink zeroBuffer zeroFrame 4 4
     (Or.inl rfl) rfl rfl rfl (by decide)⟩

/-- A sink negotiated to 131072x131072 I420, SHA-1, whole-frame mode: the
smallest power-of-two square at which the C code's `guint` size arithmetic
wraps (Ysize = 2^34 mod 2^32 = 0, Usize = 2^32 mod 2^32 = 0, size = 0). -/
def bigSink : GstChecksumSink := ⟨⟨.I420, 131072, 131072⟩, .SHA1, false⟩

/-- C4 (counterexample): at effective dimensions 131072x131072 the C code
computes Ysize/Usize/size in wrapping 32-bit `guint` arithmetic and calls
`g_malloc (0)`, so the scratch buffer is NOT allocated with the packed byte
count width*height + 2*((width/2)*(height/2)) = 25769803776 the claim
states. -/
theorem c4_formula_allocation_differs :
    ((gst_checksum_sink_render bigSink zeroBuffer).events.filter is_alloc_event) ≠
      [Event.alloc (131072 * 131072 + 2 * ((131072 / 2) * (131072 / 2)))] := by
  rw [render_eq_whole_wrapped bigSink zeroBuffer zeroFrame 131072 131072
    (Or.inl rfl) rfl rfl rfl]
  simp only [List.filter, is_alloc_event]
  decide

/-- C4 (amended): on every call that reaches the packing stage (supported
format, successful mapping), the packed byte count used to size the scratch
buffer is computed once, in the C code's wrapping 32-bit `guint` arithmetic,
and the scratch buffer is allocated exactly once with exactly that value:
(width*height + 2*((width/2)*(height/2))) mod 2^32 for the effective
dimensions — equal to the plain formula whenever it is below 2^32. -/
theorem c4_single_allocation_wrapped (sink : GstChecksumSink) (buffer : GstBuffer)
    (frame : GstVideoFrame) (width height : Nat)
    (hfmt : sink.vinfo.format = .I420 ∨ sink.vinfo.format = .YV12)
    (hmap : buffer.map_result = some frame)
    (heff : effective_dimensions sink buffer = (width, height)) :
    ((gst_checksum_sink_render sink buffer).events.filter is_alloc_event) =
      [Event.alloc ((width * height + 2 * ((width / 2) * (height / 2))) % 4294967296)] := by
  have harith : w32 (w32 (width * height) + w32 ((width / 2) * (height / 2)) +
      w32 ((width / 2) * (height / 2))) =
        (width * height + 2 * ((width / 2) * (height / 2))) % 4294967296 := by
    unfold w32; omega
  cases hpc : sink.plane_checksum
  · rw [render_eq_whole_wrapped sink buffer frame width height hfmt hpc hmap heff]
    simp only [List.filter, is_alloc_event, harith]
  · rw [render_eq_planes_wrapped sink buffer frame width height hfmt hpc hmap heff]
    simp only [List.filter, is_alloc_event, harith]

theorem c4_witness :
    (bigSink.vinfo.format = .I420 ∨ bigSink.vinfo.format = .YV12) ∧
    ((gst_checksum_sink_render bigSink zeroBuffer).events.filter is_alloc_event) =
      [Event.alloc ((131072 * 131072 + 2 * ((131072 / 2) * (131072 / 2))) % 4294967296)] :=
  ⟨Or.inl rfl,
   c4_single_allocation_wrapped bigSink zeroBuffer zeroFrame 131072 131072
     (Or.inl rfl) rfl rfl⟩

/-- C6: the effective dimensions of a call come from the per-buffer crop
meta when one is present and from the negotiated `vinfo` otherwise, and the
render call leaves the stored element state (in particular the negotiated
geometry) unchanged, so a crop override affects only its own frame. -/
theorem c6_crop_override (sink : GstChecksumSink) (buffer : GstBuffer) (cm : GstVideoCropMeta) :
    (buffer.crop_meta = some cm → effective_dimensions sink buffer = (cm.width, cm.height)) ∧
    (buffer.crop_meta = none →
      effective_dimensions sink buffer = (sink.vinfo.width, sink.vinfo.height)) ∧
    (gst_checksum_sink_render sink buffer).sink = sink := by
  refine ⟨fun h => by simp [effective_dimensions, h],
          fun h => by simp [effective_dimensions, h], ?_⟩
  unfold gst_checksum_sink_render
  dsimp only
  split
  · rfl
  · split <;> rfl

theorem c6_witness :
    ((⟨some ⟨2, 2⟩, some zeroFrame⟩ : GstBuffer).crop_meta = some ⟨2, 2⟩ →
      effective_dimensions zeroSink ⟨some ⟨2, 2⟩, some zeroFrame⟩ = (2, 2)) ∧
    ((⟨some ⟨2, 2⟩, some zeroFrame⟩ : GstBuffer).crop_meta = none →
      effective_dimensions zeroSink ⟨some ⟨2, 2⟩, some zeroFrame⟩ =
        (zeroSink.vinfo.width, zeroSink.vinfo.height)) ∧
    (gst_checksum_sink_render zeroSink ⟨some ⟨2, 2⟩, some zeroFrame⟩).sink = zeroSink :=
  c6_crop_override zeroSink ⟨some ⟨2, 2⟩, some zeroFrame⟩ ⟨2, 2⟩

/-- C10: the claim that every write of the extraction loop lands inside the
scratch buffer is the intended safety property, but the code lacks it: at
effective dimensions 131072x131072 (I420) the wrapping 32-bit `guint` size
arithmetic makes the call allocate a 0-byte scratch buffer while the row-copy
loop still writes the full unwrapped packed byte count 2^34 + 2^33 =
25769803776 — an integer-overflow heap overflow.  This theorem evaluates the
model at that failing input: the single allocation is 0 bytes and the bytes
the loop writes number 25769803776. -/
theorem c10_overflow_divergence :
    ((gst_checksum_sink_render bigSink zeroBuffer).events.filter is_alloc_event) =
      [Event.alloc 0] ∧
    (pack_frame zeroFrame 131072 131072).length = 25769803776 := by
  constructor
  · rw [render_eq_whole_wrapped bigSink zeroBuffer zeroFrame 131072 131072
      (Or.inl rfl) rfl rfl rfl]
    simp only [List.filter, is_alloc_event]
    decide
  · rw [pack_frame_length]

/-- C5: two source buffers with the same format, dimensions, crop meta and
configuration whose planes carry identical logical pixel content (same bytes
at the first `logical_width` positions of every row), but possibly different
row strides (each at least the plane's logical width), render to identical
results: extraction copies only `logical_width` bytes per row and advances
the source by the stride, discarding row padding. -/
theorem c5_stride_independence (sink : GstChecksumSink) (b1 b2 : GstBuffer)
    (f1 f2 : GstVideoFrame) (width height : Nat)
    (hfmt : sink.vinfo.format = .I420 ∨ sink.vinfo.format = .YV12)
    (hcrop : b1.crop_meta = b2.crop_meta)
    (hmap1 : b1.map_result = some f1) (hmap2 : b2.map_result = some f2)
    (heff : effective_dimensions sink b1 = (width, height))
    (hstride : ∀ p < 3,
      (get_plane_width_and_height p width height).1 ≤
          (f1.planes.getD p ⟨fun _ => 0, 0⟩).stride ∧
        (get_plane_width_and_height p width height).1 ≤
          (f2.planes.getD p ⟨fun _ => 0, 0⟩).stride)
    (hcontent : ∀ p < 3, ∀ j < (get_plane_width_and_height p width height).2,
      ∀ i < (get_plane_width_and_height p width height).1,
      (f1.planes.getD p ⟨fun _ => 0, 0⟩).data
          (j * (f1.planes.getD p ⟨fun _ => 0, 0⟩).stride + i) =
        (f2.planes.getD p ⟨fun _ => 0, 0⟩).data
          (j * (f2.planes.getD p ⟨fun _ => 0, 0⟩).stride + i)) :
    gst_checksum_sink_render sink b1 = gst_checksum_sink_render sink b2 := by
  have heff2 : effective_dimensions sink b2 = (width, height) := by
    rw [← effective_dimensions_congr sink b1 b2 hcrop]; exact heff
  have hext : ∀ p, p < 3 → plane_extraction f1 width height p = plane_extraction f2 width height p := by
    intro p hp
    exact copy_plane_rows_congr _ _ _ _ _ _ (hcontent p hp)
  have hpack : pack_frame f1 width height = pack_frame f2 width height := by
    unfold pack_frame
    rw [hext 0 (by omega), hext 1 (by omega), hext 2 (by omega)]
  cases hpc : sink.plane_checksum
  · rw [render_eq_whole_wrapped sink b1 f1 width height hfmt hpc hmap1 heff,
      render_eq_whole_wrapped sink b2 f2 width height hfmt hpc hmap2 heff2, hpack]
  · rw [render_eq_planes_wrapped sink b1 f1 width height hfmt hpc hmap1 heff,
      render_eq_planes_wrapped sink b2 f2 width height hfmt hpc hmap2 heff2,
      hext 0 (by omega), hext 1 (by omega), hext 2 (by omega)]

/-- A 2x2 I420 frame of constant bytes 7 with tight strides (2, 1, 1). -/
def strideFrameA : GstVideoFrame :=
  ⟨[⟨fun _ => 7, 2⟩, ⟨fun _ => 7, 1⟩, ⟨fun _ => 7, 1⟩]⟩

/-- The same logical 2x2 content with padded strides (5, 4, 3). -/
def strideFrameB : GstVideoFrame :=
  ⟨[⟨fun _ => 7, 5⟩, ⟨fun _ => 7, 4⟩, ⟨fun _ => 7, 3⟩]⟩

/-- A sink negotiated to 2x2 I420, SHA-1, whole-frame mode. -/
def smallSink : GstChecksumSink := ⟨⟨.I420, 2, 2⟩, .SHA1, false⟩

theorem c5_witness :
    (∀ p < 3, ∀ j < (get_plane_width_and_height p 2 2).2,
      ∀ i < (get_plane_width_and_height p 2 2).1,
      (strideFrameA.planes.getD p ⟨fun _ => 0, 0⟩).data
          (j * (strideFrameA.planes.getD p ⟨fun _ => 0, 0⟩).stride + i) =
        (strideFrameB.planes.getD p ⟨fun _ => 0, 0⟩).data
          (j * (strideFrameB.planes.getD p ⟨fun _ => 0, 0⟩).stride + i)) ∧
    gst_checksum_sink_render smallSink ⟨none, some strideFrameA⟩ =
      gst_checksum_sink_render smallSink ⟨none, some strideFrameB⟩ :=
  ⟨by decide,
   c5_stride_independence smallSink ⟨none, some strideFrameA⟩ ⟨none, some strideFrameB⟩
     strideFrameA strideFrameB 2 2 (Or.inl rfl) rfl rfl rfl rfl (by decide) (by decide)⟩

/-- C8: a call that reaches the packing stage emits exactly one line: in
per-plane mode the three plane digests, each followed by two spaces, then a
newline; in whole-frame mode the line `FrameChecksum <hex-digest>` ending in
a newline; never both (the two modes are exclusive by the `plane_checksum`
flag), and the whole output contains exactly one newline character, at the
end.  The size hypothesis restricts to frames whose packed byte count fits
the C code's 32-bit `guint` size arithmetic: on larger frames the C
overflows its scratch allocation during extraction and never reaches the
printing code, so those executions produce no line for the claim to speak
about. -/
theorem c8_single_line_output (sink : GstChecksumSink) (buffer : GstBuffer)
    (frame : GstVideoFrame) (width height : Nat)
    (hfmt : sink.vinfo.format = .I420 ∨ sink.vinfo.format = .YV12)
    (hmap : buffer.map_result = some frame)
    (heff : effective_dimensions sink buffer = (width, height))
    (hsize : width * height + 2 * ((width / 2) * (height / 2)) < 4294967296) :
    (sink.plane_checksum = true →
      emitted (gst_checksum_sink_render sink buffer).events =
        g_compute_checksum_for_data sink.checksum_type
            (plane_extraction frame width height 0) ++ "  " ++
          (g_compute_checksum_for_data sink.checksum_type
            (plane_extraction frame width height 1) ++ "  ") ++
          (g_compute_checksum_for_data sink.checksum_type
            (plane_extraction frame width height 2) ++ "  ") ++ "\n") ∧
    (sink.plane_checksum = false →
      emitted (gst_checksum_sink_render sink buffer).events =
        "FrameChecksum " ++ g_compute_checksum_for_data sink.checksum_type
          (pack_frame frame width height) ++ "\n") ∧
    (emitted (gst_checksum_sink_render sink buffer).events).data.count '\n' = 1 := by
  have hsp : ("  " : String).data.count '\n' = 0 := by decide
  have hnl : ("\n" : String).data.count '\n' = 1 := by decide
  have hfc : ("FrameChecksum " : String).data.count '\n' = 0 := by decide
  refine ⟨?_, ?_, ?_⟩
  · intro hpc
    rw [render_eq_planes sink buffer frame width height hfmt hpc hmap heff hsize]
    simp [emitted, String.append_assoc]
  · intro hpc
    rw [render_eq_whole sink buffer frame width height hfmt hpc hmap heff hsize]
    simp [emitted, String.append_assoc]
  · cases hpc : sink.plane_checksum
    · rw [render_eq_whole sink buffer frame width height hfmt hpc hmap heff hsize]
      simp [emitted, String.data_append, List.count_append,
        g_compute_checksum_newline_free, hsp, hnl, hfc]
    · rw [render_eq_planes sink buffer frame width height hfmt hpc hmap heff hsize]
      simp [emitted, String.data_append, List.count_append,
        g_compute_checksum_newline_free, hsp, hnl, hfc]

theorem c8_witness :
    (zeroBuffer.map_result = some zeroFrame) ∧
    ((zeroPlaneSink.plane_checksum = true →
      emitted (gst_checksum_sink_render zeroPlaneSink zeroBuffer).events =
        g_compute_checksum_for_data zeroPlaneSink.checksum_type
            (plane_extraction zeroFrame 4 4 0) ++ "  " ++
          (g_compute_checksum_for_data zeroPlaneSink.checksum_type
            (plane_extraction zeroFrame 4 4 1) ++ "  ") ++
          (g_compute_checksum_for_data zeroPlaneSink.checksum_type
            (plane_extraction zeroFrame 4 4 2) ++ "  ") ++ "\n") ∧
    (zeroPlaneSink.plane_checksum = false →
      emitted (gst_checksum_sink_render zeroPlaneSink zeroBuffer).events =
        "FrameChecksum " ++ g_compute_checksum_for_data zeroPlaneSink.checksum_type
          (pack_frame zeroFrame 4 4) ++ "\n") ∧
    (emitted (gst_checksum_sink_render zeroPlaneSink zeroBuffer).events).data.count '\n' = 1) :=
  ⟨rfl, c8_single_line_output zeroPlaneSink zeroBuffer zeroFrame 4 4 (Or.inl rfl) rfl rfl (by decide)⟩
